import Mathlib

/-!
Shallow embedding of the AI observability logging subsystem
(`05_src/utils/ai_logger.py` and `05_src/ai_observability/storage.py`).

Python strings whose length matters (prompt/response bodies) are modelled
as `List Char`; other strings as `String`.  SQLite REAL columns are
modelled as `ℚ`, INTEGER columns as `Int`.  Python truthiness of strings
and options is modelled explicitly (`strTruthy`, `optStrTruthy`).
-/

namespace AIObs

/-- Python truthiness of a string: the empty string is falsy. -/
def strTruthy (s : String) : Bool := s ≠ ""

/-- Python truthiness of an optional string: `None` and the empty string are falsy. -/
def optStrTruthy : Option String → Bool
  | none => false
  | some s => strTruthy s

/-- Python `a or b` on optional strings, as used for conversation-id resolution. -/
def pyOrOptStr (a b : Option String) : Option String :=
  if optStrTruthy a then a else b

/-- The `LogCategory` enumeration of `ai_logger.py`. -/
inductive LogCategory where
  | PROMPT | RESPONSE | TOOL_CALL | TOOL_RESULT | EVALUATION
  | PERFORMANCE | COST | ERROR | GUARDRAIL | MODEL_CONFIG
deriving DecidableEq, Repr

/-- The `.value` string of each `LogCategory` member. -/
def LogCategory.value : LogCategory → String
  | .PROMPT => "prompt"
  | .RESPONSE => "response"
  | .TOOL_CALL => "tool_call"
  | .TOOL_RESULT => "tool_result"
  | .EVALUATION => "evaluation"
  | .PERFORMANCE => "performance"
  | .COST => "cost"
  | .ERROR => "error"
  | .GUARDRAIL => "guardrail"
  | .MODEL_CONFIG => "model_config"

/-- Python `list(LogCategory)`: all members in declaration order. -/
def allCategories : List LogCategory :=
  [.PROMPT, .RESPONSE, .TOOL_CALL, .TOOL_RESULT, .EVALUATION,
   .PERFORMANCE, .COST, .ERROR, .GUARDRAIL, .MODEL_CONFIG]

/-- The `LogSeverity` enumeration of `ai_logger.py`. -/
inductive LogSeverity where
  | DEBUG | INFO | WARNING | ERROR | CRITICAL
deriving DecidableEq, Repr

/-- The `.value` string of each `LogSeverity` member (names equal values). -/
def LogSeverity.value : LogSeverity → String
  | .DEBUG => "DEBUG"
  | .INFO => "INFO"
  | .WARNING => "WARNING"
  | .ERROR => "ERROR"
  | .CRITICAL => "CRITICAL"

/-- The `severity_levels` ranking table of `AILogger._should_log`. -/
def severityLevel : LogSeverity → Nat
  | .DEBUG => 0
  | .INFO => 1
  | .WARNING => 2
  | .ERROR => 3
  | .CRITICAL => 4

/-- Python `LogSeverity[name]` as a total function: `some` on the five
member names, `none` where the subscript would raise `KeyError`. -/
def severityFromName (s : String) : Option LogSeverity :=
  if s = "DEBUG" then some .DEBUG
  else if s = "INFO" then some .INFO
  else if s = "WARNING" then some .WARNING
  else if s = "ERROR" then some .ERROR
  else if s = "CRITICAL" then some .CRITICAL
  else none

/-- Configuration state of an `AILogger` after `__init__`
(storage path omitted: file-system layout is outside the model). -/
structure LoggerConfig where
  min_severity : LogSeverity := .INFO
  enabled_categories : List LogCategory := allCategories
  max_log_length : Nat := 10000
deriving DecidableEq, Repr

/-- Python `enabled_categories or list(LogCategory)` in `AILogger.__init__`:
`None` or the empty list both fall back to all categories. -/
def initEnabledCategories : Option (List LogCategory) → List LogCategory
  | none => allCategories
  | some l => if l.isEmpty then allCategories else l

/-- `AILogger.__init__`: build the configuration state from the arguments. -/
def AILogger.init (min_severity : LogSeverity) (enabled : Option (List LogCategory))
    (max_log_length : Nat) : LoggerConfig :=
  { min_severity := min_severity
    enabled_categories := initEnabledCategories enabled
    max_log_length := max_log_length }

/-- Severity resolution inside `get_ai_logger`: read `AI_LOG_MIN_SEVERITY`
(default `"INFO"`), look the name up with `LogSeverity[...]`, and on
`KeyError` fall back to `LogSeverity.INFO`. -/
def resolveMinSeverity (env : Option String) : LogSeverity :=
  let name := env.getD "INFO"
  match severityFromName name with
  | some s => s
  | none => LogSeverity.INFO

/-- `AILogger._should_log`: severity-threshold and category-allowlist gate. -/
def should_log (cfg : LoggerConfig) (severity : LogSeverity) (category : LogCategory) : Bool :=
  if severityLevel severity < severityLevel cfg.min_severity then false
  else if !(cfg.enabled_categories.contains category) then false
  else true

/-- The truncation marker appended by `AILogger._truncate_text`:
`"... [truncated N chars]"` for `N` elided characters. -/
def truncMarker (n : Nat) : List Char :=
  ("... [truncated " ++ toString n ++ " chars]").toList

/-- `AILogger._truncate_text`: truncate a (possibly absent) text when it is
truthy and longer than `max_log_length`. -/
def truncate_text (maxLen : Nat) : Option (List Char) → Option (List Char)
  | none => none
  | some t =>
    if !t.isEmpty && decide (t.length > maxLen) then
      some (t.take maxLen ++ truncMarker (t.length - maxLen))
    else
      some t

/-! JSON values and a model of `json.loads`.

The query layer calls Python's `json.loads` on the stored `metadata` and
`evaluation_scores` columns inside `try/except`.  `json.loads` is library
code, so the conversion step below is parameterised over an arbitrary
decoder `loads : String → Option Json`; the concrete `json_loads` defined
here is a real recursive-descent parser for the JSON fragment exercised in
this development (null, booleans, integer numbers, escape-free strings,
arrays, objects) and is used to instantiate closed statements. -/

/-- JSON values as produced by decoding a stored column. -/
inductive Json where
  | null
  | bool (b : Bool)
  | num (n : Int)
  | str (s : String)
  | arr (xs : List Json)
  | obj (fields : List (String × Json))
deriving Repr

/-- Opening brace character. -/
def lbraceChar : Char := Char.ofNat 123

/-- Closing brace character. -/
def rbraceChar : Char := Char.ofNat 125

/-- Double-quote character. -/
def quoteChar : Char := Char.ofNat 34

/-- JSON whitespace. -/
def isWs (c : Char) : Bool := c = ' ' || c = '\n' || c = '\t' || c = '\r'

/-- Drop leading JSON whitespace. -/
def skipWs : List Char → List Char
  | [] => []
  | c :: cs => if isWs c then skipWs cs else c :: cs

/-- Parse the body of a JSON string after the opening quote (no escapes). -/
def parseStrBody : List Char → Option (List Char × List Char)
  | [] => none
  | c :: cs =>
    if c = quoteChar then some ([], cs)
    else (parseStrBody cs).map (fun p => (c :: p.1, p.2))

/-- Decimal digits to a natural number. -/
def digitsToNat (ds : List Char) : Nat :=
  ds.foldl (fun n c => n * 10 + (c.toNat - 48)) 0

/-- Parse an integer JSON number. -/
def parseNum (cs : List Char) : Option (Json × List Char) :=
  match cs with
  | '-' :: rest =>
    let ds := rest.takeWhile Char.isDigit
    if ds.isEmpty then none
    else some (.num (-(digitsToNat ds : Int)), rest.drop ds.length)
  | _ =>
    let ds := cs.takeWhile Char.isDigit
    if ds.isEmpty then none
    else some (.num (digitsToNat ds : Int), cs.drop ds.length)

mutual

/-- Parse one JSON value (fuelled recursive descent). -/
def parseVal (fuel : Nat) (cs : List Char) : Option (Json × List Char) :=
  match fuel with
  | 0 => none
  | fuel + 1 =>
    match skipWs cs with
    | [] => none
    | c :: rest =>
      if c = 'n' then
        match rest with
        | 'u' :: 'l' :: 'l' :: rs => some (.null, rs)
        | _ => none
      else if c = 't' then
        match rest with
        | 'r' :: 'u' :: 'e' :: rs => some (.bool true, rs)
        | _ => none
      else if c = 'f' then
        match rest with
        | 'a' :: 'l' :: 's' :: 'e' :: rs => some (.bool false, rs)
        | _ => none
      else if c = quoteChar then
        (parseStrBody rest).map (fun p => (.str (String.mk p.1), p.2))
      else if c = '[' then
        match skipWs rest with
        | c2 :: rs2 =>
          if c2 = ']' then some (.arr [], rs2)
          else (parseItems fuel (c2 :: rs2)).map (fun p => (.arr p.1, p.2))
        | [] => none
      else if c = lbraceChar then
        match skipWs rest with
        | c2 :: rs2 =>
          if c2 = rbraceChar then some (.obj [], rs2)
          else (parseFields fuel (c2 :: rs2)).map (fun p => (.obj p.1, p.2))
        | [] => none
      else
        parseNum (c :: rest)

/-- Parse the comma-separated items of a non-empty JSON array, up to `]`. -/
def parseItems (fuel : Nat) (cs : List Char) : Option (List Json × List Char) :=
  match fuel with
  | 0 => none
  | fuel + 1 =>
    match parseVal fuel cs with
    | none => none
    | some (v, rest) =>
      match skipWs rest with
      | ',' :: rs => (parseItems fuel rs).map (fun p => (v :: p.1, p.2))
      | c :: rs => if c = ']' then some ([v], rs) else none
      | [] => none

/-- Parse the fields of a non-empty JSON object, up to the closing brace. -/
def parseFields (fuel : Nat) (cs : List Char) : Option (List (String × Json) × List Char) :=
  match fuel with
  | 0 => none
  | fuel + 1 =>
    match skipWs cs with
    | c :: rest =>
      if c = quoteChar then
        match parseStrBody rest with
        | none => none
        | some (key, r1) =>
          match skipWs r1 with
          | ':' :: r2 =>
            match parseVal fuel r2 with
            | none => none
            | some (v, r3) =>
              match skipWs r3 with
              | ',' :: r4 =>
                (parseFields fuel r4).map (fun p => ((String.mk key, v) :: p.1, p.2))
              | c2 :: r4 =>
                if c2 = rbraceChar then some ([(String.mk key, v)], r4) else none
              | [] => none
          | _ => none
      else none
    | [] => none

end

/-- Model of Python `json.loads` on the fragment above: parse one value and
require full consumption (up to trailing whitespace); `none` where
`json.loads` would raise `JSONDecodeError`. -/
def json_loads (s : String) : Option Json :=
  match parseVal (s.length + 1) s.toList with
  | some (v, rest) => if (skipWs rest).isEmpty then some v else none
  | none => none

/-! The persisted row (one record of the `ai_logs` table, schema of
`AILogger._init_db`).  `timestamp` is the ISO-8601 string actually stored;
SQLite compares and orders these TEXT values lexicographically, which is
the lexicographic order on `List Char` used below. -/

/-- One stored row of the `ai_logs` table. -/
structure Row where
  id : String
  timestamp : List Char
  conversation_id : Option String
  category : String
  severity : String
  message : String
  metadata : String
  model_name : Option String := none
  prompt_text : Option (List Char) := none
  response_text : Option (List Char) := none
  token_count_input : Option Int := none
  token_count_output : Option Int := none
  latency_ms : Option ℚ := none
  cost_usd : Option ℚ := none
  tool_name : Option String := none
  evaluation_scores : Option String := none
deriving DecidableEq, Repr

/-- Arguments of one `AILogger.log` call.  `metadata_json` stands for the
JSON serialization of the `**metadata` keyword arguments (the writer always
stores `json.dumps` of a dict, never the empty string); evaluation scores
are kept as the score mapping passed by the caller. -/
structure LogArgs where
  category : LogCategory
  message : String
  severity : LogSeverity := .INFO
  conversation_id : Option String := none
  model_name : Option String := none
  prompt_text : Option (List Char) := none
  response_text : Option (List Char) := none
  token_count_input : Option Int := none
  token_count_output : Option Int := none
  latency_ms : Option ℚ := none
  cost_usd : Option ℚ := none
  tool_name : Option String := none
  evaluation_scores : Option (List (String × ℚ)) := none
  metadata_json : String := "\x7b\x7d"
deriving Repr

/-- Simple serialization of a score mapping, standing in for
`json.dumps(entry.evaluation_scores)` (its exact text is irrelevant to
every claim; only presence versus absence matters). -/
def scoresDump (l : List (String × ℚ)) : String :=
  "\x7b" ++ String.intercalate ","
    (l.map (fun p => String.mk (quoteChar :: p.1.toList) ++
      String.mk [quoteChar] ++ ":" ++ toString p.2)) ++ "\x7d"

/-- Python `json.dumps(entry.evaluation_scores) if entry.evaluation_scores
else None` in `AILogger._store`: an absent or empty score dict stores NULL. -/
def evalScoresColumn : Option (List (String × ℚ)) → Option String
  | none => none
  | some l => if l.isEmpty then none else some (scoresDump l)

/-- Conversation-id resolution in `AILogger.log`:
`conv_id = conversation_id or conversation_id_ctx.get()`. -/
def resolveConvId (explicitArg ctxVal : Option String) : Option String :=
  pyOrOptStr explicitArg ctxVal

/-- The row built and inserted by `AILogger.log` (entry construction plus
`_store`).  `newId` stands for `str(uuid.uuid4())` and `now` for
`datetime.now(timezone.utc).isoformat()`, both ambient inputs. -/
def mkRow (cfg : LoggerConfig) (newId : String) (now : List Char) (ctxVal : Option String)
    (a : LogArgs) : Row :=
  { id := newId
    timestamp := now
    conversation_id := resolveConvId a.conversation_id ctxVal
    category := a.category.value
    severity := a.severity.value
    message := a.message
    metadata := a.metadata_json
    model_name := a.model_name
    prompt_text := truncate_text cfg.max_log_length a.prompt_text
    response_text := truncate_text cfg.max_log_length a.response_text
    token_count_input := a.token_count_input
    token_count_output := a.token_count_output
    latency_ms := a.latency_ms
    cost_usd := a.cost_usd
    tool_name := a.tool_name
    evaluation_scores := evalScoresColumn a.evaluation_scores }

/-- `AILogger.log` as a transformation of the stored table: gate with
`_should_log` (a gated call returns at once and writes nothing), otherwise
build the entry and insert exactly one row. -/
def AILogger.log (cfg : LoggerConfig) (newId : String) (now : List Char) (ctxVal : Option String)
    (a : LogArgs) (db : List Row) : List Row :=
  if !should_log cfg a.severity a.category then db
  else db ++ [mkRow cfg newId now ctxVal a]

/-! The query layer (`LogStorage.query_logs` and friends in
`storage.py`). -/

/-- Arguments of `LogStorage.query_logs`.  The time bounds are the
`isoformat()` strings the SQL parameters are bound to (a `datetime` is
always truthy in Python, so those two filters apply exactly when present,
unlike the four string filters). -/
structure QueryArgs where
  conversation_id : Option String := none
  category : Option String := none
  severity : Option String := none
  model_name : Option String := none
  start_time : Option (List Char) := none
  end_time : Option (List Char) := none
  limit : Nat := 1000
  offset : Nat := 0
deriving DecidableEq, Repr

/-- One equality condition of `query_logs` against a non-nullable column:
appended only when the argument is truthy (Python `if category:` etc.). -/
def condEq (filt : Option String) (field : String) : Bool :=
  if optStrTruthy filt then field == filt.getD "" else true

/-- One equality condition of `query_logs` against a nullable column:
a NULL field never satisfies SQL `col = ?`. -/
def condEqOpt (filt : Option String) (field : Option String) : Bool :=
  if optStrTruthy filt then field == filt else true

/-- The `timestamp >= ?` condition, appended when `start_time` is present. -/
def condStart (filt : Option (List Char)) (ts : List Char) : Bool :=
  match filt with
  | none => true
  | some s => decide (s ≤ ts)

/-- The `timestamp <= ?` condition, appended when `end_time` is present. -/
def condEnd (filt : Option (List Char)) (ts : List Char) : Bool :=
  match filt with
  | none => true
  | some e => decide (ts ≤ e)

/-- The conjunction of all WHERE conditions of `query_logs`. -/
def rowMatches (q : QueryArgs) (r : Row) : Bool :=
  condEqOpt q.conversation_id r.conversation_id &&
  condEq q.category r.category &&
  condEq q.severity r.severity &&
  condEqOpt q.model_name r.model_name &&
  condStart q.start_time r.timestamp &&
  condEnd q.end_time r.timestamp

/-- The `ORDER BY timestamp DESC` relation. -/
def tsDesc (a b : Row) : Prop := b.timestamp ≤ a.timestamp

instance : DecidableRel tsDesc := fun a b =>
  inferInstanceAs (Decidable (b.timestamp ≤ a.timestamp))

instance : IsTotal Row tsDesc := ⟨fun a b => le_total b.timestamp a.timestamp⟩

instance : IsTrans Row tsDesc := ⟨fun _ _ _ hab hbc => le_trans hbc hab⟩

/-- The SQL part of `query_logs`: filter by the WHERE clause, order by
timestamp descending, then apply `LIMIT ? OFFSET ?`. -/
def queryRows (q : QueryArgs) (db : List Row) : List Row :=
  (((db.filter (rowMatches q)).insertionSort tsDesc).drop q.offset).take q.limit

/-- The value left in the result dict under `metadata` after the JSON
post-processing of `query_logs`. -/
inductive MetaOut where
  | raw (s : String)
  | parsed (j : Json)
deriving Repr

/-- The value left in the result dict under `evaluation_scores`. -/
inductive EvalOut where
  | pyNone
  | raw (s : String)
  | parsed (j : Json)
deriving Repr

/-- Post-processing of the `metadata` column in `query_logs`: a truthy text
is decoded, a decode failure degrades to the empty dict, a falsy text is
left as-is. -/
def convertMeta (loads : String → Option Json) (s : String) : MetaOut :=
  if strTruthy s then
    match loads s with
    | some j => .parsed j
    | none => .parsed (.obj [])
  else .raw s

/-- Post-processing of the `evaluation_scores` column in `query_logs`:
a truthy text is decoded, a decode failure degrades to `None`, a falsy
value (NULL or the empty string) is left as-is. -/
def convertEval (loads : String → Option Json) : Option String → EvalOut
  | none => .pyNone
  | some s =>
    if strTruthy s then
      match loads s with
      | some j => .parsed j
      | none => .pyNone
    else .raw s

/-- One result dict of `query_logs`: the row with the two JSON columns
replaced by their post-processed values. -/
structure OutRow where
  id : String
  timestamp : List Char
  conversation_id : Option String
  category : String
  severity : String
  message : String
  metadata : MetaOut
  model_name : Option String
  prompt_text : Option (List Char)
  response_text : Option (List Char)
  token_count_input : Option Int
  token_count_output : Option Int
  latency_ms : Option ℚ
  cost_usd : Option ℚ
  tool_name : Option String
  evaluation_scores : EvalOut
deriving Repr

/-- Row-to-dict conversion of `query_logs` (the loop over `rows`). -/
def convertRow (loads : String → Option Json) (r : Row) : OutRow :=
  { id := r.id
    timestamp := r.timestamp
    conversation_id := r.conversation_id
    category := r.category
    severity := r.severity
    message := r.message
    metadata := convertMeta loads r.metadata
    model_name := r.model_name
    prompt_text := r.prompt_text
    response_text := r.response_text
    token_count_input := r.token_count_input
    token_count_output := r.token_count_output
    latency_ms := r.latency_ms
    cost_usd := r.cost_usd
    tool_name := r.tool_name
    evaluation_scores := convertEval loads r.evaluation_scores }

/-- `LogStorage.query_logs`: SQL filtering, ordering and pagination,
then row conversion.  `loads` abstracts `json.loads`. -/
def query_logs (loads : String → Option Json) (q : QueryArgs) (db : List Row) :
    List OutRow :=
  (queryRows q db).map (convertRow loads)

/-- `LogStorage.get_conversation_logs`: delegate to `query_logs` with the
conversation filter, `limit=10000` and the default offset `0`. -/
def get_conversation_logs (loads : String → Option Json) (cid : String)
    (db : List Row) : List OutRow :=
  query_logs loads { conversation_id := some cid, limit := 10000 } db

/-! `LogStorage.get_statistics`. -/

/-- The time-range WHERE clause shared by all aggregate queries of
`get_statistics`. -/
def statsInRange (startT endT : Option (List Char)) (r : Row) : Bool :=
  condStart startT r.timestamp && condEnd endT r.timestamp

/-- The dictionary returned by `get_statistics`.  The two GROUP BY results
are modelled as counting functions (SQL leaves the group order
unspecified); a category or severity absent from the store simply counts
zero, which is exactly a key absent from the Python dict. -/
structure Stats where
  total_logs : Nat
  by_category : String → Nat
  by_severity : String → Nat
  total_input_tokens : Int
  total_output_tokens : Int
  total_cost_usd : ℚ
  avg_latency_ms : ℚ

/-- `LogStorage.get_statistics`: total count and per-group counts over the
time range; token/cost/latency aggregates over the rows of the range whose
`token_count_input` is non-NULL (SQL `SUM`/`AVG` ignore NULL operands and
yield NULL on an empty operand set, which Python's `or 0` / `or 0.0` then
turns into zero). -/
def get_statistics (startT endT : Option (List Char)) (db : List Row) : Stats :=
  let inR := db.filter (statsInRange startT endT)
  let qual := inR.filter (fun r => r.token_count_input.isSome)
  let lats := qual.filterMap (fun r => r.latency_ms)
  { total_logs := inR.length
    by_category := fun c => (inR.filter (fun r => r.category == c)).length
    by_severity := fun s => (inR.filter (fun r => r.severity == s)).length
    total_input_tokens := (qual.filterMap (fun r => r.token_count_input)).sum
    total_output_tokens := (qual.filterMap (fun r => r.token_count_output)).sum
    total_cost_usd := (qual.filterMap (fun r => r.cost_usd)).sum
    avg_latency_ms := if lats.length = 0 then 0 else lats.sum / (lats.length : ℚ) }

/-! Conversation Correlation Context under concurrency.

`conversation_id_ctx` is a `contextvars.ContextVar`: Python guarantees a
separate binding per logical unit of concurrent execution (thread or async
task).  The model below makes that per-execution storage explicit — the
system state carries one binding per execution id — and interleaves the
operation sequences of two executions arbitrarily.  Stored events are
tagged with the execution that issued them so the theorem can speak about
the value each execution's events carry. -/

/-- Identifier of a logical unit of concurrent execution. -/
inductive ExecId where
  | A | B
deriving DecidableEq, Repr

/-- Operations an execution performs on the correlation context:
`AILogger.set_conversation_id` and a `log` call without an explicit
conversation id. -/
inductive COp where
  | setConv (v : String)
  | logNoArg
deriving DecidableEq, Repr

/-- System state: the per-execution `ContextVar` bindings plus the stored
events (origin execution, stored `conversation_id`). -/
structure SysState where
  ctx : ExecId → Option String
  store : List (ExecId × Option String)

/-- One step of execution `e`: `set_conversation_id` rebinds only `e`'s own
context; a log call stores `resolveConvId none` of `e`'s own binding. -/
def stepOp (st : SysState) (e : ExecId) : COp → SysState
  | .setConv v => { st with ctx := fun x => if x = e then some v else st.ctx x }
  | .logNoArg => { st with store := st.store ++ [(e, resolveConvId none (st.ctx e))] }

/-- Run an interleaved trace of tagged operations. -/
def runTrace (st : SysState) : List (ExecId × COp) → SysState
  | [] => st
  | (e, op) :: tr => runTrace (stepOp st e op) tr

/-- The operations of execution `e` within a trace, in program order. -/
def projTrace (e : ExecId) (tr : List (ExecId × COp)) : List COp :=
  (tr.filter (fun p => p.1 = e)).map Prod.snd

/-- Context binding after one execution runs its own operations alone. -/
def runCtxLocal (c : Option String) : List COp → Option String
  | [] => c
  | .setConv v :: ops => runCtxLocal (some v) ops
  | .logNoArg :: ops => runCtxLocal c ops

/-- Conversation ids stored by one execution running alone from binding `c`. -/
def localEvents (c : Option String) : List COp → List (Option String)
  | [] => []
  | .setConv v :: ops => localEvents (some v) ops
  | .logNoArg :: ops => resolveConvId none c :: localEvents c ops

/-- Conversation ids of the events a given execution stored, in order. -/
def eventsOf (e : ExecId) (store : List (ExecId × Option String)) :
    List (Option String) :=
  (store.filter (fun p => p.1 = e)).map Prod.snd

/-- The initial system state: no binding, empty store. -/
def initState : SysState := { ctx := fun _ => none, store := [] }

/-! Shared lemmas about the gate and the query pipeline. -/

/-- The gate of `_should_log` holds exactly when the severity reaches the
threshold and the category is enabled. -/
theorem should_log_iff (cfg : LoggerConfig) (sev : LogSeverity) (cat : LogCategory) :
    should_log cfg sev cat = true ↔
      ¬(severityLevel sev < severityLevel cfg.min_severity ∨
        cat ∉ cfg.enabled_categories) := by
  by_cases h1 : severityLevel sev < severityLevel cfg.min_severity
  · simp [should_log, h1]
  · by_cases h2 : cat ∈ cfg.enabled_categories
    · simp [should_log, h1, h2, List.contains_iff_exists_mem_beq]
    · simp [should_log, h1, h2, List.contains_iff_exists_mem_beq]

/-- Every row the SQL part of `query_logs` returns comes from the store and
satisfies the WHERE clause. -/
theorem mem_queryRows {q : QueryArgs} {db : List Row} {r : Row}
    (h : r ∈ queryRows q db) : r ∈ db ∧ rowMatches q r = true := by
  have h1 : r ∈ ((db.filter (rowMatches q)).insertionSort tsDesc).drop q.offset :=
    List.mem_of_mem_take h
  have h2 : r ∈ (db.filter (rowMatches q)).insertionSort tsDesc :=
    List.mem_of_mem_drop h1
  have h3 : r ∈ db.filter (rowMatches q) :=
    (List.perm_insertionSort tsDesc _).mem_iff.mp h2
  exact ⟨(List.mem_filter.mp h3).1, (List.mem_filter.mp h3).2⟩

/-- With no offset and a limit at least the number of matching rows, every
matching stored row is returned by the SQL part of `query_logs`. -/
theorem queryRows_complete {q : QueryArgs} {db : List Row} {r : Row}
    (hr : r ∈ db) (hm : rowMatches q r = true) (ho : q.offset = 0)
    (hl : (db.filter (rowMatches q)).length ≤ q.limit) :
    r ∈ queryRows q db := by
  have hmem : r ∈ (db.filter (rowMatches q)).insertionSort tsDesc :=
    (List.perm_insertionSort tsDesc _).mem_iff.mpr (List.mem_filter.mpr ⟨hr, hm⟩)
  have hlen : ((db.filter (rowMatches q)).insertionSort tsDesc).length ≤ q.limit := by
    rw [List.length_insertionSort]; exact hl
  unfold queryRows
  rw [ho, List.drop_zero, List.take_of_length_le hlen]
  exact hmem

/-- The SQL part of `query_logs` is sorted by timestamp descending. -/
theorem queryRows_sorted (q : QueryArgs) (db : List Row) :
    (queryRows q db).Pairwise tsDesc := by
  have hs : ((db.filter (rowMatches q)).insertionSort tsDesc).Pairwise tsDesc :=
    List.sorted_insertionSort tsDesc _
  exact List.Pairwise.sublist
    ((List.take_sublist _ _).trans (List.drop_sublist _ _)) hs

/-- The SQL part of `query_logs` returns at most `limit` rows. -/
theorem queryRows_length_le (q : QueryArgs) (db : List Row) :
    (queryRows q db).length ≤ q.limit :=
  List.length_take_le _ _

/-- Two argument records whose WHERE clauses agree row-by-row and whose
pagination agrees produce the same `query_logs` result. -/
theorem query_logs_congr (loads : String → Option Json) (q1 q2 : QueryArgs)
    (db : List Row) (hm : ∀ r, rowMatches q1 r = rowMatches q2 r)
    (hl : q1.limit = q2.limit) (ho : q1.offset = q2.offset) :
    query_logs loads q1 db = query_logs loads q2 db := by
  unfold query_logs queryRows
  rw [List.filter_congr (fun r _ => hm r), hl, ho]

/-! C1 — conversation-id resolution in `AILogger.log`. -/

/-- C1 counterexample: with an explicit empty-string `conversation_id` and
an ambient context value, `log` stores the ambient value, not the explicit
empty string — Python's `conversation_id or conversation_id_ctx.get()`
treats the falsy empty string as absent, so the explicit argument does not
always win. -/
theorem C1_counterexample :
    (AILogger.log {} "id1" "2024-01-01T00:00:00".toList (some "ambient-conv")
        { category := .PROMPT, message := "m", conversation_id := some "" }
        []).map Row.conversation_id = [some "ambient-conv"] ∧
      (some "ambient-conv" : Option String) ≠ some "" := by
  exact ⟨rfl, by decide⟩

/-- C1 amended: every gated-through `log` call appends exactly the entry
built by `mkRow`; its stored conversation id is the explicit argument when
that argument is a non-empty string, and otherwise (explicit argument
absent or the empty string) the ambient context value — in particular it is
null when the explicit argument is absent or empty and the context is
unset. -/
theorem C1_amended (cfg : LoggerConfig) (newId : String) (now : List Char)
    (ctxVal : Option String) (a : LogArgs) (db : List Row)
    (hgate : should_log cfg a.severity a.category = true) :
    AILogger.log cfg newId now ctxVal a db = db ++ [mkRow cfg newId now ctxVal a] ∧
    (∀ v, a.conversation_id = some v → v ≠ "" →
      (mkRow cfg newId now ctxVal a).conversation_id = some v) ∧
    (a.conversation_id = none ∨ a.conversation_id = some "" →
      (mkRow cfg newId now ctxVal a).conversation_id = ctxVal) := by
  refine ⟨by simp [AILogger.log, hgate], ?_, ?_⟩
  · intro v hv hne
    simp [mkRow, resolveConvId, pyOrOptStr, optStrTruthy, strTruthy, hv, hne]
  · rintro (hv | hv) <;>
      simp [mkRow, resolveConvId, pyOrOptStr, optStrTruthy, strTruthy, hv]

/-- C1 witness: concrete instance of the amended statement. -/
theorem C1_witness :
    AILogger.log {} "i" "t".toList (some "amb")
        { category := LogCategory.PROMPT, message := "m",
          conversation_id := some "c1" } [] =
      [] ++ [mkRow {} "i" "t".toList (some "amb")
        { category := LogCategory.PROMPT, message := "m",
          conversation_id := some "c1" }] ∧
    (∀ v, (some "c1" : Option String) = some v → v ≠ "" →
      (mkRow {} "i" "t".toList (some "amb")
        { category := LogCategory.PROMPT, message := "m",
          conversation_id := some "c1" }).conversation_id = some v) ∧
    ((some "c1" : Option String) = none ∨ (some "c1" : Option String) = some "" →
      (mkRow {} "i" "t".toList (some "amb")
        { category := LogCategory.PROMPT, message := "m",
          conversation_id := some "c1" }).conversation_id = some "amb") :=
  C1_amended {} "i" "t".toList (some "amb")
    { category := LogCategory.PROMPT, message := "m",
      conversation_id := some "c1" } [] (by decide)

/-! C2 — handling of out-of-enumeration severity names. -/

/-- C2 counterexample: `"VERBOSE"` is outside the severity enumeration, yet
the lazy construction in `get_ai_logger` does not fail with a configuration
error — the `except KeyError` branch silently substitutes `INFO` and
construction proceeds. -/
theorem C2_counterexample :
    severityFromName "VERBOSE" = none ∧
    resolveMinSeverity (some "VERBOSE") = LogSeverity.INFO := by
  exact ⟨by decide, by decide⟩

/-- C2 amended: an environment-supplied severity name outside the five
member names is silently replaced by `INFO` (no configuration error is
raised); a valid name resolves to its member, and an unset variable
defaults to `INFO`. -/
theorem C2_amended (name : String) :
    (severityFromName name = none →
      resolveMinSeverity (some name) = LogSeverity.INFO) ∧
    (∀ s, severityFromName name = some s → resolveMinSeverity (some name) = s) ∧
    resolveMinSeverity none = LogSeverity.INFO := by
  refine ⟨fun h => ?_, fun s h => ?_, rfl⟩
  · simp [resolveMinSeverity, h]
  · simp [resolveMinSeverity, h]

/-- C2 witness: concrete instance of the amended statement. -/
theorem C2_witness :
    resolveMinSeverity (some "TRACE") = LogSeverity.INFO :=
  (C2_amended "TRACE").1 (by decide)

/-! C3 — gating is total and a passed gate writes exactly one row. -/

/-- C3: a `log` call leaves the store unchanged iff the severity rank is
below the threshold or the category is not enabled; otherwise it appends
exactly one new row (the constructed entry) and raises nothing — a gated
call is a pure no-op. -/
theorem C3_gating (cfg : LoggerConfig) (newId : String) (now : List Char)
    (ctxVal : Option String) (a : LogArgs) (db : List Row) :
    (AILogger.log cfg newId now ctxVal a db = db ↔
      (severityLevel a.severity < severityLevel cfg.min_severity ∨
        a.category ∉ cfg.enabled_categories)) ∧
    (¬(severityLevel a.severity < severityLevel cfg.min_severity ∨
        a.category ∉ cfg.enabled_categories) →
      AILogger.log cfg newId now ctxVal a db =
        db ++ [mkRow cfg newId now ctxVal a] ∧
      (AILogger.log cfg newId now ctxVal a db).length = db.length + 1) := by
  by_cases hg : should_log cfg a.severity a.category = true
  · have hcond := (should_log_iff cfg a.severity a.category).mp hg
    have hw : AILogger.log cfg newId now ctxVal a db =
        db ++ [mkRow cfg newId now ctxVal a] := by
      simp [AILogger.log, hg]
    refine ⟨?_, fun _ => ⟨hw, by simp [hw]⟩⟩
    rw [hw]
    simp [hcond]
  · have hb : should_log cfg a.severity a.category = false := by
      simpa using hg
    have hcond : severityLevel a.severity < severityLevel cfg.min_severity ∨
        a.category ∉ cfg.enabled_categories := by
      by_contra hc
      exact hg ((should_log_iff cfg a.severity a.category).mpr hc)
    have hw : AILogger.log cfg newId now ctxVal a db = db := by
      simp [AILogger.log, hb]
    exact ⟨by simp [hw, hcond], fun hc => absurd hcond hc⟩

/-- C3 witness: concrete instance — default configuration, an
`INFO`-severity `PROMPT` event passes the gate and appends one row. -/
theorem C3_witness :
    ¬(severityLevel LogSeverity.INFO < severityLevel LogSeverity.INFO ∨
        LogCategory.PROMPT ∉ ({} : LoggerConfig).enabled_categories) ∧
    AILogger.log {} "i" "t".toList none { category := .PROMPT, message := "m" } [] =
      [] ++ [mkRow {} "i" "t".toList none { category := .PROMPT, message := "m" }] :=
  ⟨by decide,
    ((C3_gating {} "i" "t".toList none { category := .PROMPT, message := "m" } []).2
      (by decide)).1⟩

/-! C4 — truncation of long prompt/response texts. -/

/-- C4: a text strictly longer than `max_log_length` is stored as its first
`max_log_length` characters followed by the marker reporting exactly the
number of elided characters, so the stored length is exactly
`max_log_length` plus the marker length; a text of length at most
`max_log_length` (and an absent text) is stored unchanged. -/
theorem C4_truncation (maxLen : Nat) (t : List Char) :
    (t.length > maxLen →
      truncate_text maxLen (some t) =
        some (t.take maxLen ++ truncMarker (t.length - maxLen)) ∧
      (t.take maxLen ++ truncMarker (t.length - maxLen)).length =
        maxLen + (truncMarker (t.length - maxLen)).length) ∧
    (t.length ≤ maxLen → truncate_text maxLen (some t) = some t) ∧
    truncate_text maxLen none = none := by
  refine ⟨fun h => ⟨?_, ?_⟩, fun h => ?_, rfl⟩
  · have hne : ¬t.isEmpty := by
      cases t with
      | nil => simp at h
      | cons c cs => simp [List.isEmpty]
    simp [truncate_text, hne, h]
  · simp [List.length_append, List.length_take, Nat.min_eq_left (le_of_lt h)]
  · simp [truncate_text, Nat.not_lt.mpr h]

/-- C4 witness: concrete instance with `max_log_length = 5` and an
11-character text. -/
theorem C4_witness :
    truncate_text 5 (some "hello world".toList) =
      some ("hello world".toList.take 5 ++
        truncMarker ("hello world".toList.length - 5)) ∧
    ("hello world".toList.take 5 ++
        truncMarker ("hello world".toList.length - 5)).length =
      5 + (truncMarker ("hello world".toList.length - 5)).length :=
  (C4_truncation 5 "hello world".toList).1 (by decide)

/-! C5 — query filtering, ordering and pagination. -/

/-- C5: `query_logs` returns exactly conversions of stored rows satisfying
the AND of the supplied filters (soundness and, under no offset and a
sufficient limit, completeness), ordered by timestamp descending and
bounded by `limit`; in the three-event scenario with t1 < t2 < t3 in one
conversation, the conversation-only query returns [t3, t2, t1] and adding a
category filter matching only the middle event returns exactly that row. -/
theorem C5_query_ordering (loads : String → Option Json) (q : QueryArgs)
    (db : List Row) :
    (∀ o ∈ query_logs loads q db,
      ∃ r, r ∈ db ∧ rowMatches q r = true ∧ o = convertRow loads r) ∧
    (∀ r ∈ db, rowMatches q r = true → q.offset = 0 →
      (db.filter (rowMatches q)).length ≤ q.limit →
      convertRow loads r ∈ query_logs loads q db) ∧
    (query_logs loads q db).Pairwise (fun x y => y.timestamp ≤ x.timestamp) ∧
    (query_logs loads q db).length ≤ q.limit ∧
    (∀ (r1 r2 r3 : Row) (cid catX : String),
      cid ≠ "" → catX ≠ "" →
      r1.conversation_id = some cid → r2.conversation_id = some cid →
      r3.conversation_id = some cid →
      r1.timestamp < r2.timestamp → r2.timestamp < r3.timestamp →
      r2.category = catX → r1.category ≠ catX → r3.category ≠ catX →
      query_logs loads { conversation_id := some cid } [r1, r2, r3] =
        [convertRow loads r3, convertRow loads r2, convertRow loads r1] ∧
      query_logs loads { conversation_id := some cid, category := some catX }
          [r1, r2, r3] = [convertRow loads r2]) := by
  refine ⟨?_, ?_, ?_, ?_, ?_⟩
  · intro o ho
    obtain ⟨r, hr, rfl⟩ := List.mem_map.mp ho
    exact ⟨r, (mem_queryRows hr).1, (mem_queryRows hr).2, rfl⟩
  · intro r hr hm ho hl
    exact List.mem_map_of_mem _ (queryRows_complete hr hm ho hl)
  · exact List.pairwise_map.mpr (queryRows_sorted q db)
  · simpa [query_logs] using queryRows_length_le q db
  · intro r1 r2 r3 cid catX hcid hcat hc1 hc2 hc3 ht12 ht23 he2 hn1 hn3
    have n12 : ¬ tsDesc r1 r2 := by simp [tsDesc, not_le]; exact ht12
    have n23 : ¬ tsDesc r2 r3 := by simp [tsDesc, not_le]; exact ht23
    have n13 : ¬ tsDesc r1 r3 := by
      simp [tsDesc, not_le]; exact lt_trans ht12 ht23
    constructor
    · have hm1 : rowMatches { conversation_id := some cid } r1 = true := by
        simp [rowMatches, condEqOpt, condEq, condStart, condEnd,
          optStrTruthy, strTruthy, hcid, hc1]
      have hm2 : rowMatches { conversation_id := some cid } r2 = true := by
        simp [rowMatches, condEqOpt, condEq, condStart, condEnd,
          optStrTruthy, strTruthy, hcid, hc2]
      have hm3 : rowMatches { conversation_id := some cid } r3 = true := by
        simp [rowMatches, condEqOpt, condEq, condStart, condEnd,
          optStrTruthy, strTruthy, hcid, hc3]
      have hsort : (([r1, r2, r3] : List Row).filter
          (rowMatches { conversation_id := some cid })).insertionSort tsDesc =
            [r3, r2, r1] := by
        simp [List.filter, hm1, hm2, hm3, List.insertionSort,
          List.orderedInsert, n12, n23, n13]
      show ((((([r1, r2, r3] : List Row).filter _).insertionSort
          tsDesc).drop 0).take 1000).map (convertRow loads) = _
      rw [hsort, List.drop_zero, List.take_of_length_le (by simp)]
      rfl
    · have hm1 : rowMatches
          { conversation_id := some cid, category := some catX } r1 = false := by
        simp [rowMatches, condEqOpt, condEq, condStart, condEnd,
          optStrTruthy, strTruthy, hcid, hcat, hc1, hn1]
      have hm2 : rowMatches
          { conversation_id := some cid, category := some catX } r2 = true := by
        simp [rowMatches, condEqOpt, condEq, condStart, condEnd,
          optStrTruthy, strTruthy, hcid, hcat, hc2, he2]
      have hm3 : rowMatches
          { conversation_id := some cid, category := some catX } r3 = false := by
        simp [rowMatches, condEqOpt, condEq, condStart, condEnd,
          optStrTruthy, strTruthy, hcid, hcat, hc3, hn3]
      have hsort : (([r1, r2, r3] : List Row).filter
          (rowMatches { conversation_id := some cid, category := some catX })
          ).insertionSort tsDesc = [r2] := by
        simp [List.filter, hm1, hm2, hm3, List.insertionSort, List.orderedInsert]
      show ((((([r1, r2, r3] : List Row).filter _).insertionSort
          tsDesc).drop 0).take 1000).map (convertRow loads) = _
      rw [hsort, List.drop_zero, List.take_of_length_le (by simp)]
      rfl

/-- C5 witness: concrete three-row instance of the scenario. -/
theorem C5_witness :
    query_logs json_loads { conversation_id := some "conv1" }
        [{ id := "1", timestamp := "t1".toList, conversation_id := some "conv1",
           category := "prompt", severity := "INFO", message := "m1",
           metadata := "" },
         { id := "2", timestamp := "t2".toList, conversation_id := some "conv1",
           category := "response", severity := "INFO", message := "m2",
           metadata := "" },
         { id := "3", timestamp := "t3".toList, conversation_id := some "conv1",
           category := "prompt", severity := "INFO", message := "m3",
           metadata := "" }] =
      [convertRow json_loads
        { id := "3", timestamp := "t3".toList, conversation_id := some "conv1",
          category := "prompt", severity := "INFO", message := "m3",
          metadata := "" },
       convertRow json_loads
        { id := "2", timestamp := "t2".toList, conversation_id := some "conv1",
          category := "response", severity := "INFO", message := "m2",
          metadata := "" },
       convertRow json_loads
        { id := "1", timestamp := "t1".toList, conversation_id := some "conv1",
          category := "prompt", severity := "INFO", message := "m1",
          metadata := "" }] ∧
    query_logs json_loads
        { conversation_id := some "conv1", category := some "response" }
        [{ id := "1", timestamp := "t1".toList, conversation_id := some "conv1",
           category := "prompt", severity := "INFO", message := "m1",
           metadata := "" },
         { id := "2", timestamp := "t2".toList, conversation_id := some "conv1",
           category := "response", severity := "INFO", message := "m2",
           metadata := "" },
         { id := "3", timestamp := "t3".toList, conversation_id := some "conv1",
           category := "prompt", severity := "INFO", message := "m3",
           metadata := "" }] =
      [convertRow json_loads
        { id := "2", timestamp := "t2".toList, conversation_id := some "conv1",
          category := "response", severity := "INFO", message := "m2",
          metadata := "" }] :=
  (C5_query_ordering json_loads { conversation_id := some "conv1" } []).2.2.2.2
    { id := "1", timestamp := "t1".toList, conversation_id := some "conv1",
      category := "prompt", severity := "INFO", message := "m1",
      metadata := "" }
    { id := "2", timestamp := "t2".toList, conversation_id := some "conv1",
      category := "response", severity := "INFO", message := "m2",
      metadata := "" }
    { id := "3", timestamp := "t3".toList, conversation_id := some "conv1",
      category := "prompt", severity := "INFO", message := "m3",
      metadata := "" }
    "conv1" "response" (by decide) (by decide) rfl rfl rfl (by decide)
    (by decide) rfl (by decide) (by decide)

/-! C9 — an empty-string equality filter behaves as an omitted filter. -/

/-- C9: for each of the four equality filters of `query_logs`, passing the
empty string is indistinguishable from omitting the filter (the Python
`if filter:` truthiness test never appends the condition), and a
conversation-id filter of `""` returns events of every conversation. -/
theorem C9_empty_filter_is_no_filter (loads : String → Option Json)
    (q : QueryArgs) (db : List Row) :
    query_logs loads { q with conversation_id := some "" } db =
      query_logs loads { q with conversation_id := none } db ∧
    query_logs loads { q with category := some "" } db =
      query_logs loads { q with category := none } db ∧
    query_logs loads { q with severity := some "" } db =
      query_logs loads { q with severity := none } db ∧
    query_logs loads { q with model_name := some "" } db =
      query_logs loads { q with model_name := none } db ∧
    (query_logs json_loads { conversation_id := some "" }
        [{ id := "a", timestamp := "t1".toList, conversation_id := some "a-conv",
           category := "prompt", severity := "INFO", message := "m",
           metadata := "" },
         { id := "b", timestamp := "t2".toList, conversation_id := some "b-conv",
           category := "prompt", severity := "INFO", message := "m",
           metadata := "" }]).map OutRow.conversation_id =
      [some "b-conv", some "a-conv"] := by
  refine ⟨?_, ?_, ?_, ?_, by decide⟩ <;>
    exact query_logs_congr loads _ _ db
      (fun r => by
        simp [rowMatches, condEqOpt, condEq, optStrTruthy, strTruthy])
      rfl rfl

/-! C10 — `get_conversation_logs` and its 10000-row cap. -/

/-- C10 counterexample: for the empty-string conversation id the
delegated `query_logs` drops the conversation filter entirely, so
`get_conversation_logs ""` returns events of other conversations — here
the store holds exactly one event of conversation `""` yet two rows come
back — contradicting "returns the events of that conversation". -/
theorem C10_counterexample :
    (([{ id := "a", timestamp := "t1".toList, conversation_id := some "",
         category := "prompt", severity := "INFO", message := "m",
         metadata := "" },
       { id := "b", timestamp := "t2".toList, conversation_id := some "x",
         category := "prompt", severity := "INFO", message := "m",
         metadata := "" }] : List Row).filter
        (fun r => r.conversation_id == some "")).length = 1 ∧
    (get_conversation_logs json_loads ""
        [{ id := "a", timestamp := "t1".toList, conversation_id := some "",
           category := "prompt", severity := "INFO", message := "m",
           metadata := "" },
         { id := "b", timestamp := "t2".toList, conversation_id := some "x",
           category := "prompt", severity := "INFO", message := "m",
           metadata := "" }]).length = 2 := by
  exact ⟨by decide, by decide⟩

/-- C10 amended: for every non-empty conversation id,
`get_conversation_logs` delegates to `query_logs` with `limit=10000` and
offset 0 and returns exactly the (up to 10000 most recent) events of that
conversation, newest first; for the empty string the conversation filter
is dropped (see the empty-filter behaviour) and events of every
conversation are returned. -/
theorem C10_capped_conversation (loads : String → Option Json) (cid : String)
    (db : List Row) (hc : cid ≠ "") :
    get_conversation_logs loads cid db =
      query_logs loads { conversation_id := some cid, limit := 10000 } db ∧
    (∀ o ∈ get_conversation_logs loads cid db, o.conversation_id = some cid) ∧
    ((db.filter (fun r => r.conversation_id == some cid)).length ≤ 10000 →
      ∀ r ∈ db, r.conversation_id = some cid →
        convertRow loads r ∈ get_conversation_logs loads cid db) ∧
    (get_conversation_logs loads cid db).length ≤ 10000 ∧
    (get_conversation_logs loads cid db).Pairwise
      (fun x y => y.timestamp ≤ x.timestamp) := by
  have hmatch : ∀ r : Row,
      rowMatches { conversation_id := some cid, limit := 10000 } r =
        (r.conversation_id == some cid) := by
    intro r
    simp [rowMatches, condEqOpt, condEq, condStart, condEnd,
      optStrTruthy, strTruthy, hc]
  refine ⟨rfl, ?_, ?_, ?_, ?_⟩
  · intro o ho
    obtain ⟨r, hr, rfl⟩ := List.mem_map.mp ho
    have hm := (mem_queryRows hr).2
    rw [hmatch] at hm
    exact beq_iff_eq.mp hm
  · intro hlen r hr hconv
    refine List.mem_map_of_mem _ (queryRows_complete hr ?_ rfl ?_)
    · rw [hmatch, hconv]; exact beq_self_eq_true _
    · rw [List.filter_congr (fun r _ => hmatch r)]
      exact hlen
  · simpa [get_conversation_logs, query_logs] using
      queryRows_length_le { conversation_id := some cid, limit := 10000 } db
  · exact List.pairwise_map.mpr (queryRows_sorted _ db)

/-- C10 witness: concrete instance of the amended statement. -/
theorem C10_witness :
    ("c" : String) ≠ "" ∧
    get_conversation_logs json_loads "c"
        [{ id := "a", timestamp := "t1".toList, conversation_id := some "c",
           category := "prompt", severity := "INFO", message := "m",
           metadata := "" }] =
      query_logs json_loads { conversation_id := some "c", limit := 10000 }
        [{ id := "a", timestamp := "t1".toList, conversation_id := some "c",
           category := "prompt", severity := "INFO", message := "m",
           metadata := "" }] :=
  ⟨by decide,
    (C10_capped_conversation json_loads "c"
      [{ id := "a", timestamp := "t1".toList, conversation_id := some "c",
         category := "prompt", severity := "INFO", message := "m",
         metadata := "" }] (by decide)).1⟩

/-! C7 — degradation of malformed stored JSON. -/

/-- C7 counterexample: the empty string is non-decodable JSON text
(`json.loads("")` raises), but since it is falsy the `if
log_dict.get(...)` guards skip the decode entirely and `query_logs`
returns the raw empty string, not the degraded empty mapping (and not the
absent value for `evaluation_scores`). -/
theorem C7_counterexample :
    json_loads "" = none ∧
    (query_logs json_loads {}
        [{ id := "a", timestamp := "t1".toList, conversation_id := some "c",
           category := "prompt", severity := "INFO", message := "m",
           metadata := "", evaluation_scores := some "" }]).map OutRow.metadata =
      [MetaOut.raw ""] ∧
    MetaOut.raw "" ≠ MetaOut.parsed (Json.obj []) ∧
    (query_logs json_loads {}
        [{ id := "a", timestamp := "t1".toList, conversation_id := some "c",
           category := "prompt", severity := "INFO", message := "m",
           metadata := "", evaluation_scores := some "" }]).map
      OutRow.evaluation_scores = [EvalOut.raw ""] ∧
    EvalOut.raw "" ≠ EvalOut.pyNone := by
  refine ⟨rfl, rfl, fun h => ?_, rfl, fun h => ?_⟩
  · exact MetaOut.noConfusion h
  · exact EvalOut.noConfusion h

/-- C7 amended: for every decoder behaviour, a *non-empty* (truthy)
non-decodable `metadata` text degrades to the empty mapping and a
non-empty non-decodable `evaluation_scores` text degrades to the absent
value, while every row of the SQL result is still returned (conversion is
total — no decode failure escapes to the caller); a falsy column (NULL or
the empty string) is passed through unchanged instead. -/
theorem C7_degradation (loads : String → Option Json) (q : QueryArgs)
    (db : List Row) :
    (∀ r ∈ queryRows q db, convertRow loads r ∈ query_logs loads q db) ∧
    (∀ r : Row, strTruthy r.metadata = true → loads r.metadata = none →
      (convertRow loads r).metadata = MetaOut.parsed (Json.obj [])) ∧
    (∀ (r : Row) (s : String), r.evaluation_scores = some s →
      strTruthy s = true → loads s = none →
      (convertRow loads r).evaluation_scores = EvalOut.pyNone) ∧
    (∀ r : Row, r.metadata = "" → (convertRow loads r).metadata = MetaOut.raw "") ∧
    (∀ r : Row, r.evaluation_scores = none →
      (convertRow loads r).evaluation_scores = EvalOut.pyNone) := by
  refine ⟨?_, ?_, ?_, ?_, ?_⟩
  · intro r hr
    exact List.mem_map_of_mem _ hr
  · intro r h1 h2
    simp [convertRow, convertMeta, h1, h2]
  · intro r s hs h1 h2
    simp [convertRow, convertEval, hs, h1, h2]
  · intro r h
    simp [convertRow, convertMeta, h, strTruthy]
  · intro r h
    simp [convertRow, convertEval, h]

/-- C7 witness: a concrete row whose `metadata` is the non-empty malformed
text `"{"` and whose `evaluation_scores` is the non-empty malformed text
`"x"` degrades to the empty mapping and the absent value. -/
theorem C7_witness :
    strTruthy "\x7b" = true ∧ json_loads "\x7b" = none ∧
    (convertRow json_loads
      { id := "a", timestamp := "t1".toList, conversation_id := some "c",
        category := "prompt", severity := "INFO", message := "m",
        metadata := "\x7b", evaluation_scores := some "x" }).metadata =
      MetaOut.parsed (Json.obj []) ∧
    (convertRow json_loads
      { id := "a", timestamp := "t1".toList, conversation_id := some "c",
        category := "prompt", severity := "INFO", message := "m",
        metadata := "\x7b", evaluation_scores := some "x" }).evaluation_scores =
      EvalOut.pyNone :=
  ⟨by decide, rfl,
    (C7_degradation json_loads {} []).2.1
      { id := "a", timestamp := "t1".toList, conversation_id := some "c",
        category := "prompt", severity := "INFO", message := "m",
        metadata := "\x7b", evaluation_scores := some "x" } (by decide) rfl,
    (C7_degradation json_loads {} []).2.2.1
      { id := "a", timestamp := "t1".toList, conversation_id := some "c",
        category := "prompt", severity := "INFO", message := "m",
        metadata := "\x7b", evaluation_scores := some "x" } "x" rfl (by decide) rfl⟩

/-! C6 — aggregate statistics. -/

/-- C6: `get_statistics` counts every in-range row in `total_logs` and in
the per-category/per-severity groups; the token, cost and latency
aggregates range only over in-range rows whose `token_count_input` is
present — appending a row without token counts increments the total but
leaves every token/cost/latency aggregate unchanged — and when no row
qualifies all numeric aggregates are zero rather than null or absent. -/
theorem C6_statistics (startT endT : Option (List Char)) (db : List Row) :
    (get_statistics startT endT db).total_logs =
      (db.filter (statsInRange startT endT)).length ∧
    (∀ c, (get_statistics startT endT db).by_category c =
      (db.filter (fun r => statsInRange startT endT r && (r.category == c))).length) ∧
    (∀ s, (get_statistics startT endT db).by_severity s =
      (db.filter (fun r => statsInRange startT endT r && (r.severity == s))).length) ∧
    (db.filter (fun r => statsInRange startT endT r &&
        r.token_count_input.isSome) = [] →
      (get_statistics startT endT db).total_input_tokens = 0 ∧
      (get_statistics startT endT db).total_output_tokens = 0 ∧
      (get_statistics startT endT db).total_cost_usd = 0 ∧
      (get_statistics startT endT db).avg_latency_ms = 0) ∧
    (∀ r : Row, statsInRange startT endT r = true → r.token_count_input = none →
      (get_statistics startT endT (db ++ [r])).total_logs =
        (get_statistics startT endT db).total_logs + 1 ∧
      (get_statistics startT endT (db ++ [r])).total_input_tokens =
        (get_statistics startT endT db).total_input_tokens ∧
      (get_statistics startT endT (db ++ [r])).total_output_tokens =
        (get_statistics startT endT db).total_output_tokens ∧
      (get_statistics startT endT (db ++ [r])).total_cost_usd =
        (get_statistics startT endT db).total_cost_usd ∧
      (get_statistics startT endT (db ++ [r])).avg_latency_ms =
        (get_statistics startT endT db).avg_latency_ms) := by
  have hfuse : ∀ p : Row → Bool,
      (db.filter (statsInRange startT endT)).filter p =
        db.filter (fun r => statsInRange startT endT r && p r) := by
    intro p
    rw [List.filter_filter]
    exact List.filter_congr (fun r _ => by rw [Bool.and_comm])
  refine ⟨rfl, ?_, ?_, ?_, ?_⟩
  · intro c
    exact congrArg List.length (hfuse (fun r => r.category == c))
  · intro s
    exact congrArg List.length (hfuse (fun r => r.severity == s))
  · intro hq
    have hqual : (db.filter (statsInRange startT endT)).filter
        (fun r => r.token_count_input.isSome) = [] := by
      rw [hfuse]; exact hq
    refine ⟨?_, ?_, ?_, ?_⟩ <;> dsimp only [get_statistics] <;>
      rw [hqual] <;> simp
  · intro r hr hnone
    have h1 : (db ++ [r]).filter (statsInRange startT endT) =
        db.filter (statsInRange startT endT) ++ [r] := by
      simp [List.filter_append, hr]
    have h2 : ((db ++ [r]).filter (statsInRange startT endT)).filter
        (fun x => x.token_count_input.isSome) =
          (db.filter (statsInRange startT endT)).filter
            (fun x => x.token_count_input.isSome) := by
      rw [h1]
      simp [List.filter_append, hnone]
    refine ⟨?_, ?_, ?_, ?_, ?_⟩ <;> dsimp only [get_statistics]
    · rw [h1, List.length_append]
      rfl
    · rw [h2]
    · rw [h2]
    · rw [h2]
    · rw [h2]

/-- C6 witness: appending one in-range row without token counts to the
empty store gives `total_logs = 1` and leaves every token/cost/latency
aggregate at its empty-store value. -/
theorem C6_witness :
    statsInRange none none
      { id := "a", timestamp := "t1".toList, conversation_id := some "c",
        category := "prompt", severity := "INFO", message := "m",
        metadata := "" } = true ∧
    (get_statistics none none ([] ++
      [{ id := "a", timestamp := "t1".toList, conversation_id := some "c",
         category := "prompt", severity := "INFO", message := "m",
         metadata := "" }])).total_logs =
      (get_statistics none none []).total_logs + 1 ∧
    (get_statistics none none ([] ++
      [{ id := "a", timestamp := "t1".toList, conversation_id := some "c",
         category := "prompt", severity := "INFO", message := "m",
         metadata := "" }])).total_input_tokens =
      (get_statistics none none []).total_input_tokens :=
  ⟨by decide,
    ((C6_statistics none none []).2.2.2.2
      { id := "a", timestamp := "t1".toList, conversation_id := some "c",
        category := "prompt", severity := "INFO", message := "m",
        metadata := "" } (by decide) rfl).1,
    ((C6_statistics none none []).2.2.2.2
      { id := "a", timestamp := "t1".toList, conversation_id := some "c",
        category := "prompt", severity := "INFO", message := "m",
        metadata := "" } (by decide) rfl).2.1⟩

/-! C8 — per-execution isolation of the correlation context. -/

/-- Under any interleaving, one execution's context binding and stored
events are determined by its own operation sequence alone: the other
execution's steps never touch them. -/
theorem runTrace_proj (e : ExecId) :
    ∀ (tr : List (ExecId × COp)) (st : SysState),
      (runTrace st tr).ctx e = runCtxLocal (st.ctx e) (projTrace e tr) ∧
      eventsOf e (runTrace st tr).store =
        eventsOf e st.store ++ localEvents (st.ctx e) (projTrace e tr) := by
  intro tr
  induction tr with
  | nil =>
    intro st
    simp [runTrace, projTrace, eventsOf, runCtxLocal, localEvents]
  | cons hd tl ih =>
    intro st
    obtain ⟨e2, op⟩ := hd
    by_cases he : e2 = e
    · subst he
      cases op with
      | setConv v =>
        have h := ih (stepOp st e2 (.setConv v))
        simpa [runTrace, stepOp, projTrace, List.filter_cons, runCtxLocal,
          localEvents, eventsOf] using h
      | logNoArg =>
        have h := ih (stepOp st e2 .logNoArg)
        simp only [runTrace, stepOp, projTrace, List.filter_cons] at h ⊢
        simp only [decide_True, if_pos rfl] at h ⊢
        refine ⟨by simpa using h.1, ?_⟩
        rw [h.2]
        simp [eventsOf, List.filter_append, List.map_append, localEvents,
          List.append_assoc]
    · have he2 : ¬(e = e2) := fun h => he h.symm
      cases op with
      | setConv v =>
        have h := ih (stepOp st e2 (.setConv v))
        simpa [runTrace, stepOp, projTrace, List.filter_cons, he, he2] using h
      | logNoArg =>
        have h := ih (stepOp st e2 .logNoArg)
        simpa [runTrace, stepOp, projTrace, List.filter_cons, he, he2,
          eventsOf, List.filter_append] using h

/-- C8: for any interleaving of two executions that each set their own
conversation id and then log without an explicit id, each execution's
stored event carries exactly the value it set itself — the other
execution's value never leaks in. -/
theorem C8_context_isolation (a b : String) (tr : List (ExecId × COp))
    (hA : projTrace .A tr = [.setConv a, .logNoArg])
    (hB : projTrace .B tr = [.setConv b, .logNoArg]) :
    eventsOf .A (runTrace initState tr).store = [some a] ∧
    eventsOf .B (runTrace initState tr).store = [some b] := by
  have h1 := (runTrace_proj .A tr initState).2
  have h2 := (runTrace_proj .B tr initState).2
  rw [hA] at h1
  rw [hB] at h2
  rw [h1, h2]
  simp [initState, eventsOf, localEvents, resolveConvId, pyOrOptStr, optStrTruthy]

/-- C8 witness: one concrete interleaving (A set, B set, A log, B log). -/
theorem C8_witness :
    projTrace ExecId.A
        [(ExecId.A, COp.setConv "ca"), (ExecId.B, COp.setConv "cb"),
         (ExecId.A, COp.logNoArg), (ExecId.B, COp.logNoArg)] =
      [COp.setConv "ca", COp.logNoArg] ∧
    eventsOf ExecId.A (runTrace initState
        [(ExecId.A, COp.setConv "ca"), (ExecId.B, COp.setConv "cb"),
         (ExecId.A, COp.logNoArg), (ExecId.B, COp.logNoArg)]).store =
      [some "ca"] ∧
    eventsOf ExecId.B (runTrace initState
        [(ExecId.A, COp.setConv "ca"), (ExecId.B, COp.setConv "cb"),
         (ExecId.A, COp.logNoArg), (ExecId.B, COp.logNoArg)]).store =
      [some "cb"] :=
  ⟨by decide,
    (C8_context_isolation "ca" "cb"
      [(ExecId.A, COp.setConv "ca"), (ExecId.B, COp.setConv "cb"),
       (ExecId.A, COp.logNoArg), (ExecId.B, COp.logNoArg)]
      (by decide) (by decide)).1,
    (C8_context_isolation "ca" "cb"
      [(ExecId.A, COp.setConv "ca"), (ExecId.B, COp.setConv "cb"),
       (ExecId.A, COp.logNoArg), (ExecId.B, COp.logNoArg)]
      (by decide) (by decide)).2⟩

end AIObs
